import Mathlib

/-!
Verification development for the triphoto Photo Ingestion & Social-Ranking
frontend subsystem.  The definitions below are shallow embeddings of the
TypeScript source:

* `frontend/src/components/PhotoGallery.tsx` — `visiblePhotos`, `handleLike`,
  `handleDislike`;
* `frontend/src/components/PhotoUpload.tsx` — `uploadFilesInBatches`,
  `handleUpload`;
* the enhanced upload component (`uploadFilesWithLogging`,
  `retryFailedUploads`);
* the API client (`validateInput.roomId`, `validateInput.userName`,
  `validateInput.file`, `sanitizeInput`, `photoApi.uploadPhoto`);
* the room page (`RoomInfo` delete-button gate, `handleDeleteRoom`).

JavaScript numbers that are only ever incremented and decremented are
modelled as `Int`; sizes and counts that stay non-negative as `Nat`.
Asynchronous per-file upload outcomes are modelled as explicit outcome
values supplied to the (otherwise deterministic) client logic, so that a
run of the batch uploader is a pure function of the file list and the
outcome of each file's ingestion call.
-/

namespace Triphoto

/-! ### String helpers (substring search, character classes) -/

/-- Does the character list `hay` start with `needle`?  (Mirrors the
character-by-character comparison JavaScript `String.prototype.includes`
performs at one candidate position.) -/
def seqStarts : List Char → List Char → Bool
  | [], _ => true
  | _ :: _, [] => false
  | a :: as, b :: bs => a == b && seqStarts as bs

/-- Does `hay` contain `needle` as a contiguous subsequence? -/
def seqContainsAux (needle : List Char) : List Char → Bool
  | [] => needle.isEmpty
  | c :: rest => seqStarts needle (c :: rest) || seqContainsAux needle rest

/-- `s.includes(pat)` of JavaScript: substring containment. -/
def strIncludes (s pat : String) : Bool :=
  seqContainsAux pat.data s.data

/-- A hexadecimal digit, upper or lower case (the `[0-9a-f]` class of the
room-id regex together with its `i` flag). -/
def hexDigit (c : Char) : Bool :=
  c.isDigit || ('a' ≤ c && c ≤ 'f') || ('A' ≤ c && c ≤ 'F')

/-- One character of the user-name class `[가-힣a-zA-Z0-9._-]`. -/
def userNameChar (c : Char) : Bool :=
  ('가' ≤ c && c ≤ '힣') || c.isAlpha || c.isDigit ||
    c == '.' || c == '_' || c == '-'

/-! ### `validateInput` (API client) -/

/-- Split a character list at every `-` (the group boundaries of the
anchored UUID regex). -/
def splitDash : List Char → List (List Char)
  | [] => [[]]
  | c :: rest =>
    if c = '-' then [] :: splitDash rest
    else
      match splitDash rest with
      | [] => [[c]]
      | g :: gs => (c :: g) :: gs

/-- `validateInput.roomId`: the UUID regex
`/^[0-9a-f]{8}-[0-9a-f]{4}-[0-9a-f]{4}-[0-9a-f]{4}-[0-9a-f]{12}$/i`:
the dash-separated groups are exactly five hex runs of lengths
8, 4, 4, 4, 12. -/
def validRoomId (s : String) : Bool :=
  let parts := splitDash s.data
  parts.map List.length == [8, 4, 4, 4, 12] &&
    parts.all (fun p => p.all hexDigit)

/-- `validateInput.userName`: length between 2 and 50 and the regex
`/^[가-힣a-zA-Z0-9._-]+$/`. -/
def validUserName (s : String) : Bool :=
  2 ≤ s.length && s.length ≤ 50 && s.data.all userNameChar

/-- The allowed content types of `validateInput.file`. -/
def allowedTypes : List String :=
  ["image/jpeg", "image/jpg", "image/png", "image/gif", "image/webp"]

/-- The 10 MiB size cap of `validateInput.file` (`10 * 1024 * 1024`). -/
def maxFileSize : Nat := 10 * 1024 * 1024

/-- The metadata of a browser `File` that `validateInput.file` inspects. -/
structure FileMeta where
  name : String
  size : Nat
  mimeType : String
  deriving DecidableEq, Repr

/-- Does the original filename contain `..`, `/` or `\`?  (The
"suspicious filename" check of `validateInput.file`.) -/
def suspiciousName (n : String) : Bool :=
  strIncludes n ".." || strIncludes n "/" || strIncludes n "\\"

/-- `validateInput.file`: returns the error message of the first failing
check (`{valid:false, error}`), or `none` (`{valid:true}`).  The checks run
in source order: content type, size, filename. -/
def validateFile (f : FileMeta) : Option String :=
  if !(allowedTypes.contains f.mimeType) then
    some "Invalid file type. Only JPEG, PNG, GIF, and WebP are allowed."
  else if maxFileSize < f.size then
    some "File too large. Maximum size is 10MB."
  else if suspiciousName f.name then
    some "Invalid filename."
  else
    none

/-- `sanitizeInput` maps one character to its XSS-escaped form.  The five
sequential `String.replace` calls of the source commute with a single
character-wise pass because no replacement string contains a replaced
character. -/
def sanitizeChar (c : Char) : String :=
  if c = '<' then "&lt;"
  else if c = '>' then "&gt;"
  else if c = '"' then "&quot;"
  else if c = '\x27' then "&#x27;"
  else if c = '/' then "&#x2F;"
  else String.singleton c

/-- `sanitizeInput`: escape the XSS-relevant characters, then trim. -/
def sanitizeInput (s : String) : String :=
  (s.data.foldl (fun acc c => acc ++ sanitizeChar c) "").trim

/-! ### `photoApi.uploadPhoto` (validation before the POST request) -/

/-- The POST request `photoApi.uploadPhoto` issues once validation passes. -/
structure UploadRequest where
  roomId : String
  uploaderName : String
  fileName : String
  deriving DecidableEq, Repr

/-- `photoApi.uploadPhoto` up to the point the network request is issued:
validate the room id, the uploader name, then the file; a thrown `Error`
is an `Except.error` and no request is made. -/
def uploadPhotoRequest (roomId uploaderName : String) (f : FileMeta) :
    Except String UploadRequest :=
  if !(validRoomId roomId) then .error "Invalid room ID format"
  else if !(validUserName uploaderName) then .error "Invalid username"
  else
    match validateFile f with
    | some e => .error e
    | none => .ok ⟨roomId, sanitizeInput uploaderName, f.name⟩

/-- Whether `uploadPhotoRequest` reached the POST (no validation error). -/
def requestMade (r : Except String UploadRequest) : Bool :=
  match r with
  | .ok _ => true
  | .error _ => false

/-! ### The gallery data model (`Photo` of `types/index.ts`, with the
reaction counters used by `PhotoGallery.tsx`) -/

/-- The fields of the frontend `Photo` record that the gallery logic
reads or writes.  The counters are JavaScript numbers mutated by `+ 1`
and `- 1`, hence `Int`. -/
structure Photo where
  id : String
  room_id : String
  original_filename : String
  uploader_name : String
  like_count : Int
  dislike_count : Int
  taken_at : Option String
  deriving DecidableEq, Repr

/-- `visiblePhotos` of `PhotoGallery.tsx`:
`localPhotos.filter(photo => photo.dislike_count === 0)`. -/
def visiblePhotos (photos : List Photo) : List Photo :=
  photos.filter (fun photo => photo.dislike_count == 0)

/-- The component state of `PhotoGallery` that the like/dislike handlers
touch: the current user's reaction id-sets and the local photo list. -/
structure GalleryState where
  userLikes : Finset String
  userDislikes : Finset String
  photos : List Photo
  deriving DecidableEq

/-- `handleLike(photoId)`: toggle `photoId` in `userLikes`, and adjust
`like_count` of the matching photos by `-1` when the pre-toggle set
contains the id (`isLiked`) and `+1` otherwise.  Both the functional
`setUserLikes` update and the `isLiked` read in `setLocalPhotos` observe
the pre-handler state. -/
def handleLike (photoId : String) (s : GalleryState) : GalleryState :=
  { s with
    userLikes :=
      if photoId ∈ s.userLikes then s.userLikes.erase photoId
      else insert photoId s.userLikes
    photos := s.photos.map fun photo =>
      if photo.id = photoId then
        { photo with
          like_count :=
            if photoId ∈ s.userLikes then photo.like_count - 1
            else photo.like_count + 1 }
      else photo }

/-- `handleDislike(photoId)`: the same toggle on `userDislikes` and
`dislike_count`. -/
def handleDislike (photoId : String) (s : GalleryState) : GalleryState :=
  { s with
    userDislikes :=
      if photoId ∈ s.userDislikes then s.userDislikes.erase photoId
      else insert photoId s.userDislikes
    photos := s.photos.map fun photo =>
      if photo.id = photoId then
        { photo with
          dislike_count :=
            if photoId ∈ s.userDislikes then photo.dislike_count - 1
            else photo.dislike_count + 1 }
      else photo }

/-! ### Batch partitioning (`BATCH_SIZE = 5`) and the inter-batch delay

Both batch uploaders slice the file list into windows of 5:
`for (let i = 0; i < files.length; i += BATCH_SIZE)
   { batch = files.slice(i, i + BATCH_SIZE); ... }`,
await `Promise.allSettled` of the window, and sleep `BATCH_DELAY`
afterwards unless the window was the last
(`if (i + BATCH_SIZE < files.length)` in the logging uploader,
equivalently `batchIndex < batches.length - 1` in `PhotoUpload.tsx`). -/

/-- The `BATCH_SIZE` constant of both uploaders. -/
def batchSize : Nat := 5

/-- The partition of the file list into consecutive windows of
`batchSize` produced by the slice loop. -/
def chunk5 {α : Type} (l : List α) : List (List α) :=
  if h : l.isEmpty then []
  else l.take batchSize :: chunk5 (l.drop batchSize)
termination_by l.length
decreasing_by
  have hne : l ≠ [] := by
    intro hnil
    rw [hnil] at h
    simp at h
  have hpos : 0 < l.length := List.length_pos.mpr hne
  simp [List.length_drop, batchSize]
  omega

/-- One step of the batch loop's observable schedule: either a sub-batch
submitted in parallel and awaited as a whole (`Promise.allSettled`), or
the fixed `BATCH_DELAY` sleep. -/
inductive BatchEvent (α : Type) where
  | run (files : List α)
  | pause
  deriving DecidableEq, Repr

/-- The schedule the batch loop executes: emit the current window, then,
if files remain beyond it (`i + BATCH_SIZE < files.length`), the delay
followed by the rest. -/
def runBatchTrace {α : Type} (l : List α) : List (BatchEvent α) :=
  if h : l.isEmpty then []
  else
    BatchEvent.run (l.take batchSize) ::
      (if batchSize < l.length then
        BatchEvent.pause :: runBatchTrace (l.drop batchSize)
      else [])
termination_by l.length
decreasing_by
  have hne : l ≠ [] := by
    intro hnil
    rw [hnil] at h
    simp at h
  have hpos : 0 < l.length := List.length_pos.mpr hne
  simp [List.length_drop, batchSize]
  omega

/-! ### The upload-session terminal status (`uploadFilesWithLogging`)

In the logging uploader every file's promise is fulfilled — the `async`
closure catches any error and returns `{success: false, ...}` — so the
`Promise.allSettled` aggregation adds exactly one to `completedCount` or
`failedCount` per file of each window. -/

/-- The `UploadSession.status` strings assigned by the client. -/
inductive SessionStatus where
  | inProgress
  | completed
  | failed
  | partiallyFailed
  deriving DecidableEq, Repr

/-- The result aggregation of the batch loop: fold over the windows, and
within a window over the settled per-file outcomes (`true` = success),
incrementing `completedCount` or `failedCount`. -/
def countOutcomes (outcomes : List Bool) : Nat × Nat :=
  (chunk5 outcomes).foldl
    (fun acc batch =>
      batch.foldl
        (fun acc ok => if ok then (acc.1 + 1, acc.2) else (acc.1, acc.2 + 1))
        acc)
    (0, 0)

/-- The terminal status computation:
`failedCount === 0 ? 'completed' : completedCount === 0 ? 'failed'
 : 'partially_failed'`. -/
def finalStatus (completedCount failedCount : Nat) : SessionStatus :=
  if failedCount = 0 then .completed
  else if completedCount = 0 then .failed
  else .partiallyFailed

/-! ### Per-file outcome handling in the logging batch uploader -/

/-- The outcome of one `photoApiEnhanced.uploadPhotoWithLogging` call:
the created photo's id, or the thrown error's optional
`response.data.detail` and `message`. -/
inductive IngestOutcome where
  | ok (photoId : String)
  | err (detail : Option String) (message : Option String)
  deriving DecidableEq, Repr

/-- One file together with its pre-created upload log
(`fileLogPairs = files.map((file, index) => ({file, log: logs[index]}))`). -/
structure FilePair where
  fileName : String
  logId : String
  deriving DecidableEq, Repr

/-- `error.response?.data?.detail || error.message || '알 수 없는 오류'`. -/
def deriveErrorMessage (detail message : Option String) : String :=
  detail.getD (message.getD "알 수 없는 오류")

/-- What the per-file closure records about one file. -/
structure FileResult where
  success : Bool
  fileName : String
  logId : String
  photoId : Option String
  errorMessage : Option String
  deriving DecidableEq, Repr

/-- The body of the per-file closure of `uploadFilesWithLogging` (the
`try`/`catch` around `uploadPhotoWithLogging`): a success yields
`{success: true, file, log, photo}`, a failure is caught and yields
`{success: false, file, log, error}` with the derived message. -/
def perFileResult (p : FilePair) (o : IngestOutcome) : FileResult :=
  match o with
  | .ok photoId => ⟨true, p.fileName, p.logId, some photoId, none⟩
  | .err detail message =>
      ⟨false, p.fileName, p.logId, none,
        some (deriveErrorMessage detail message)⟩

/-- The per-file records of one run, each file paired with the outcome of
its own ingestion call. -/
def runBatchResults (pairs : List FilePair) (outcomes : List IngestOutcome) :
    List FileResult :=
  List.zipWith perFileResult pairs outcomes

/-! ### `uploadFilesInBatches` of `PhotoUpload.tsx` (summary + duplicate
classification) -/

/-- The data of a caught axios error that the result classifier reads:
`error.response?.status`, `error.response?.data?.detail`,
`error.message`. -/
structure HttpError where
  status : Option Nat
  detail : Option String
  message : Option String
  deriving DecidableEq, Repr

/-- The outcome of one `photoApi.uploadPhoto` call inside the simple batch
uploader. -/
inductive FileOutcome where
  | ok
  | fail (e : HttpError)
  deriving DecidableEq, Repr

/-- The error line pushed onto `errors` for a failed file, by the
status-code chain of `uploadFilesInBatches`. -/
def errorLine (name : String) (e : HttpError) : String :=
  match e.status with
  | some 409 => name ++ ": 이미 업로드된 사진입니다"
  | some 400 => name ++ ": " ++ e.detail.getD "잘못된 요청"
  | some 413 => name ++ ": 파일 크기가 너무 큽니다 (최대 10MB)"
  | some 429 => name ++ ": 요청이 너무 많습니다. 잠시 후 다시 시도해주세요"
  | some 419 => name ++ ": 보안 토큰 오류. 페이지를 새로고침해주세요"
  | _ => name ++ ": 업로드 실패 (" ++ e.message.getD "알 수 없는 오류" ++ ")"

/-- Is the failure the duplicate-content rejection (HTTP 409)? -/
def isDuplicateRejection (o : FileOutcome) : Bool :=
  match o with
  | .fail e => e.status == some 409
  | .ok => false

/-- Did the upload call succeed? -/
def isSuccess (o : FileOutcome) : Bool :=
  match o with
  | .ok => true
  | .fail _ => false

/-- A genuine failure: a failed call that is not the duplicate-content
rejection. -/
def isGenuineFailure (o : FileOutcome) : Bool :=
  match o with
  | .ok => false
  | .fail e => !(e.status == some 409)

/-- The aggregate `{completedFiles, skippedFiles, errors}` returned to
`handleUpload`. -/
structure UploadSummary where
  completedFiles : Nat
  skippedFiles : Nat
  errors : List String
  deriving DecidableEq, Repr

/-- Processing of one settled result: success increments
`completedFiles`; a 409 failure increments `skippedFiles` and pushes the
duplicate message; every failure pushes exactly one error line. -/
def summaryStep (acc : UploadSummary) (p : String × FileOutcome) :
    UploadSummary :=
  match p.2 with
  | .ok => { acc with completedFiles := acc.completedFiles + 1 }
  | .fail e =>
      { acc with
        skippedFiles :=
          acc.skippedFiles + (if e.status == some 409 then 1 else 0)
        errors := acc.errors ++ [errorLine p.1 e] }

/-- `uploadFilesInBatches`: windows of 5 processed in order, results of a
window aggregated before the next window starts. -/
def uploadFilesInBatches (pairs : List (String × FileOutcome)) :
    UploadSummary :=
  (chunk5 pairs).foldl (fun acc batch => batch.foldl summaryStep acc)
    ⟨0, 0, []⟩

/-- The per-file message for a failed file, `none` for a success (so that
`errors` is the `filterMap` of this over the input). -/
def failMessage (p : String × FileOutcome) : Option String :=
  match p.2 with
  | .ok => none
  | .fail e => some (errorLine p.1 e)

/-- The failure count `handleUpload` reports to the user:
`errors.length - skippedFiles` (shown when positive). -/
def reportedFailureCount (s : UploadSummary) : Nat :=
  s.errors.length - s.skippedFiles

/-! ### Upload logs and the client-side retry handler -/

/-- The `UploadLog.status` strings. -/
inductive LogStatus where
  | pending
  | uploading
  | success
  | failed
  | retrying
  deriving DecidableEq, Repr

/-- The fields of an `UploadLog` the retry handler reads. -/
structure UploadLog where
  id : String
  original_filename : String
  status : LogStatus
  error_message : Option String
  deriving DecidableEq, Repr

/-- The body of the reset request:
`failedLogIds = uploadResult.failed_files.map(log => log.id)`. -/
def retryRequestLogIds (failedFiles : List UploadLog) : List String :=
  failedFiles.map (fun log => log.id)

/-- The observable client actions of the retry loop.  `submitUpload`
marks a call into the ingestion pipeline (`photoApiEnhanced.
uploadPhotoWithLogging` / `photoApi.uploadPhoto`); the loop in
`retryFailedUploads` performs only the first two kinds. -/
inductive ClientAction where
  | setFileName (name : String)
  | logRetryAttempt (name : String)
  | submitUpload (fileName : String) (logId : String)
  deriving DecidableEq, Repr

/-- Is the action a submission into the ingestion pipeline? -/
def isSubmit (a : ClientAction) : Bool :=
  match a with
  | .submitUpload _ _ => true
  | _ => false

/-- The loop of `retryFailedUploads` over
`pendingLogs = updatedLogs.filter(log => log.status === 'pending')`:
per log it sets the current file name, sets the index, and logs
`재시도 중` — it issues no upload request. -/
def retryLoopActions (sessionLogs : List UploadLog) : List ClientAction :=
  (sessionLogs.filter (fun log => log.status == LogStatus.pending)).flatMap
    (fun log =>
      [ClientAction.setFileName log.original_filename,
       ClientAction.logRetryAttempt log.original_filename])

/-- The `(retrySuccessCount, retryFailCount)` the loop accumulates: the
`try` body cannot throw, so every pending log takes the success branch. -/
def retryLoopCounts (sessionLogs : List UploadLog) : Nat × Nat :=
  (sessionLogs.filter (fun log => log.status == LogStatus.pending)).foldl
    (fun acc _log => (acc.1 + 1, acc.2)) (0, 0)

/-! ### The room-deletion gate of `RoomPage` (`RoomInfo`) -/

/-- The condition under which `RoomInfo` renders the `방 삭제 (관리자)`
button wired to `handleDeleteRoom`:
`localStorage.getItem('userName') === '이성일'`. -/
def deleteButtonVisible (storedUserName : String) : Bool :=
  storedUserName == "이성일"

/-! ### Lemmas about the batch partition -/

theorem chunk5_nil {α : Type} : chunk5 ([] : List α) = [] := by
  rw [chunk5]
  simp

theorem chunk5_of_ne_nil {α : Type} (l : List α) (h : l ≠ []) :
    chunk5 l = l.take batchSize :: chunk5 (l.drop batchSize) := by
  rw [chunk5]
  simp [h]

theorem chunk5_join {α : Type} (l : List α) : (chunk5 l).flatten = l := by
  induction l using chunk5.induct with
  | case1 l h =>
    have : l = [] := by simpa using h
    subst this
    simp [chunk5_nil]
  | case2 l h ih =>
    have hne : l ≠ [] := by simpa using h
    rw [chunk5_of_ne_nil l hne]
    simp [ih]

theorem chunk5_mem_length {α : Type} (l : List α) :
    ∀ c ∈ chunk5 l, c ≠ [] ∧ c.length ≤ batchSize := by
  induction l using chunk5.induct with
  | case1 l h =>
    have : l = [] := by simpa using h
    subst this
    simp [chunk5_nil]
  | case2 l h ih =>
    have hne : l ≠ [] := by simpa using h
    rw [chunk5_of_ne_nil l hne]
    intro c hc
    rcases List.mem_cons.mp hc with hc | hc
    · subst hc
      constructor
      · have hpos : 0 < l.length := List.length_pos.mpr hne
        have : (l.take batchSize).length = min batchSize l.length :=
          List.length_take _ _
        intro hcnil
        rw [hcnil] at this
        simp [batchSize] at this
        omega
      · simpa using List.length_take_le batchSize l
    · exact ih c hc

theorem chunk5_dropLast_length {α : Type} (l : List α) :
    ∀ c ∈ (chunk5 l).dropLast, c.length = batchSize := by
  induction l using chunk5.induct with
  | case1 l h =>
    have : l = [] := by simpa using h
    subst this
    simp [chunk5_nil]
  | case2 l h ih =>
    have hne : l ≠ [] := by simpa using h
    rw [chunk5_of_ne_nil l hne]
    by_cases hrest : l.drop batchSize = []
    · simp [hrest, chunk5_nil]
    · have hchunk : chunk5 (l.drop batchSize) ≠ [] := by
        rw [chunk5_of_ne_nil _ hrest]
        simp
      rw [List.dropLast_cons_of_ne_nil hchunk]
      intro c hc
      rcases List.mem_cons.mp hc with hc | hc
      · subst hc
        have hlen : batchSize < l.length := by
          by_contra hle
          exact hrest (List.drop_eq_nil_of_le (by omega))
        simp [List.length_take]
        omega
      · exact ih c hc

theorem runBatchTrace_eq {α : Type} (l : List α) :
    runBatchTrace l =
      List.intersperse BatchEvent.pause ((chunk5 l).map BatchEvent.run) := by
  induction l using runBatchTrace.induct with
  | case1 l h =>
    have : l = [] := by simpa using h
    subst this
    rw [runBatchTrace]
    simp [chunk5_nil]
  | case2 l h ih =>
    have hne : l ≠ [] := by simpa using h
    rw [runBatchTrace]
    simp only [h, Bool.false_eq_true, if_false, dite_false]
    by_cases hmore : batchSize < l.length
    · have hrest : l.drop batchSize ≠ [] := by
        intro hnil
        have := List.drop_eq_nil_iff.mp hnil
        omega
      have hchunkne : chunk5 (l.drop batchSize) ≠ [] := by
        rw [chunk5_of_ne_nil _ hrest]
        simp
      obtain ⟨c, cs, hcc⟩ := List.exists_cons_of_ne_nil hchunkne
      rw [chunk5_of_ne_nil l hne, hcc, List.map_cons, List.map_cons,
        List.intersperse_cons₂, ← List.map_cons, ← hcc]
      simp [hmore, ih]
    · have hrest : l.drop batchSize = [] :=
        List.drop_eq_nil_of_le (by omega)
      rw [chunk5_of_ne_nil l hne, hrest, chunk5_nil]
      simp [hmore]

/-! ### Lemmas for the session-status aggregation -/

theorem countStep_sum (l : List Bool) (acc : Nat × Nat) :
    (l.foldl
        (fun acc ok => if ok then (acc.1 + 1, acc.2) else (acc.1, acc.2 + 1))
        acc).1 +
      (l.foldl
        (fun acc ok => if ok then (acc.1 + 1, acc.2) else (acc.1, acc.2 + 1))
        acc).2 =
      acc.1 + acc.2 + l.length := by
  induction l generalizing acc with
  | nil => simp
  | cons a t ih => cases a <;> simp [ih] <;> omega

theorem chunkFold_sum (chunks : List (List Bool)) (acc : Nat × Nat) :
    (chunks.foldl
        (fun acc batch =>
          batch.foldl
            (fun acc ok =>
              if ok then (acc.1 + 1, acc.2) else (acc.1, acc.2 + 1))
            acc)
        acc).1 +
      (chunks.foldl
        (fun acc batch =>
          batch.foldl
            (fun acc ok =>
              if ok then (acc.1 + 1, acc.2) else (acc.1, acc.2 + 1))
            acc)
        acc).2 =
      acc.1 + acc.2 + (chunks.map List.length).sum := by
  induction chunks generalizing acc with
  | nil => simp
  | cons b bs ih =>
    simp only [List.foldl_cons, List.map_cons, List.sum_cons]
    rw [ih]
    rw [countStep_sum]
    omega

theorem countOutcomes_sum (outcomes : List Bool) :
    (countOutcomes outcomes).1 + (countOutcomes outcomes).2 =
      outcomes.length := by
  have h2 : ((chunk5 outcomes).map List.length).sum = outcomes.length := by
    have := congrArg List.length (chunk5_join outcomes)
    simpa [List.length_flatten] using this
  unfold countOutcomes
  rw [chunkFold_sum]
  omega

theorem finalStatus_completed_iff (c f : Nat) :
    finalStatus c f = SessionStatus.completed ↔ f = 0 := by
  unfold finalStatus
  by_cases hf : f = 0 <;> by_cases hc : c = 0 <;> simp [hf, hc]

theorem finalStatus_failed_iff (c f : Nat) :
    finalStatus c f = SessionStatus.failed ↔ c = 0 ∧ 0 < f := by
  unfold finalStatus
  by_cases hf : f = 0 <;> by_cases hc : c = 0 <;> simp [hf, hc] <;> omega

theorem finalStatus_partial_iff (c f : Nat) :
    finalStatus c f = SessionStatus.partiallyFailed ↔ 0 < c ∧ 0 < f := by
  unfold finalStatus
  by_cases hf : f = 0 <;> by_cases hc : c = 0 <;> simp [hf, hc] <;> omega

/-! ## Claim theorems -/

/-- C1: a photo of the gallery's local list is in `visiblePhotos` iff its
`dislike_count` is `0`; in particular any photo with `dislike_count ≥ 1`
is absent, and a photo whose counter is back at `0` is a member again
without re-ingestion (the filter is recomputed from the same list). -/
theorem visiblePhotos_mem_iff (ps : List Photo) (p : Photo) (hp : p ∈ ps) :
    (p ∈ visiblePhotos ps ↔ p.dislike_count = 0) ∧
      (1 ≤ p.dislike_count → p ∉ visiblePhotos ps) := by
  have hmem : p ∈ visiblePhotos ps ↔ p.dislike_count = 0 := by
    constructor
    · intro hv
      have h := List.mem_filter.mp hv
      simpa using h.2
    · intro h0
      exact List.mem_filter.mpr ⟨hp, by simpa using h0⟩
  refine ⟨hmem, ?_⟩
  intro h1 hv
  have h0 := hmem.mp hv
  omega

/-- Witness for C1 at a two-photo list: the photo with one dislike is
hidden, the photo with zero dislikes is shown. -/
theorem visiblePhotos_mem_iff_witness :
    ((⟨"p2", "r1", "b.jpg", "Bob", 3, 1, none⟩ : Photo) ∈
        [(⟨"p1", "r1", "a.jpg", "Alice", 0, 0, none⟩ : Photo),
         ⟨"p2", "r1", "b.jpg", "Bob", 3, 1, none⟩]) ∧
      (((⟨"p2", "r1", "b.jpg", "Bob", 3, 1, none⟩ : Photo) ∈
          visiblePhotos
            [⟨"p1", "r1", "a.jpg", "Alice", 0, 0, none⟩,
             ⟨"p2", "r1", "b.jpg", "Bob", 3, 1, none⟩] ↔
          (⟨"p2", "r1", "b.jpg", "Bob", 3, 1, none⟩ : Photo).dislike_count =
            0) ∧
        (1 ≤ (⟨"p2", "r1", "b.jpg", "Bob", 3, 1, none⟩ : Photo).dislike_count →
          (⟨"p2", "r1", "b.jpg", "Bob", 3, 1, none⟩ : Photo) ∉
            visiblePhotos
              [⟨"p1", "r1", "a.jpg", "Alice", 0, 0, none⟩,
               ⟨"p2", "r1", "b.jpg", "Bob", 3, 1, none⟩])) :=
  ⟨by decide, visiblePhotos_mem_iff _ _ (by decide)⟩

/-- C2: the batch aggregation counts every file exactly once, so at
session finalization `completed_files + failed_files = total_files`, and
the client's terminal status is `completed` iff no file failed, `failed`
iff every file failed (and at least one did), and `partially_failed`
otherwise. -/
theorem session_terminal_invariant (outcomes : List Bool) :
    (countOutcomes outcomes).1 + (countOutcomes outcomes).2 =
        outcomes.length ∧
      (finalStatus (countOutcomes outcomes).1 (countOutcomes outcomes).2 =
          SessionStatus.completed ↔ (countOutcomes outcomes).2 = 0) ∧
      (finalStatus (countOutcomes outcomes).1 (countOutcomes outcomes).2 =
          SessionStatus.failed ↔
        (countOutcomes outcomes).1 = 0 ∧ 0 < (countOutcomes outcomes).2) ∧
      (finalStatus (countOutcomes outcomes).1 (countOutcomes outcomes).2 =
          SessionStatus.partiallyFailed ↔
        0 < (countOutcomes outcomes).1 ∧ 0 < (countOutcomes outcomes).2) :=
  ⟨countOutcomes_sum outcomes, finalStatus_completed_iff _ _,
    finalStatus_failed_iff _ _, finalStatus_partial_iff _ _⟩

/-- C3: the batch loop partitions a non-empty file list into consecutive
windows of exactly `BATCH_SIZE = 5` (the last window possibly smaller
but non-empty), executes the windows in order with the whole window
awaited before the next starts, and sleeps the fixed delay between
consecutive windows but not after the last (the trace is the window
runs interspersed with single pauses); 7 files yield windows of
5 then 2. -/
theorem batch_partition_and_delay {α : Type} (files : List α)
    (h : files ≠ []) :
    (chunk5 files).flatten = files ∧
      (∀ c ∈ chunk5 files, c ≠ [] ∧ c.length ≤ batchSize) ∧
      (∀ c ∈ (chunk5 files).dropLast, c.length = batchSize) ∧
      runBatchTrace files =
        List.intersperse BatchEvent.pause
          ((chunk5 files).map BatchEvent.run) ∧
      (files.length = 7 → (chunk5 files).map List.length = [5, 2]) := by
  refine ⟨chunk5_join files, chunk5_mem_length files,
    chunk5_dropLast_length files, runBatchTrace_eq files, ?_⟩
  intro h7
  have hne2 : files.drop batchSize ≠ [] := by
    intro hnil
    have := List.drop_eq_nil_iff.mp hnil
    simp [batchSize] at this
    omega
  have hnil2 : (files.drop batchSize).drop batchSize = [] := by
    apply List.drop_eq_nil_of_le
    simp [batchSize]
    omega
  rw [chunk5_of_ne_nil files h, chunk5_of_ne_nil _ hne2, hnil2, chunk5_nil]
  simp [List.length_take, List.length_drop, batchSize, h7]

/-- Witness for C3 on a concrete 7-file batch: the windows have sizes
5 and 2. -/
theorem batch_partition_and_delay_witness :
    (([1, 2, 3, 4, 5, 6, 7] : List Nat) ≠ []) ∧
      (chunk5 ([1, 2, 3, 4, 5, 6, 7] : List Nat)).map List.length =
        [5, 2] :=
  ⟨by decide,
    (batch_partition_and_delay [1, 2, 3, 4, 5, 6, 7] (by decide)).2.2.2.2
      (by decide)⟩

/-- C5 counterexample: the room-deletion capability of `RoomPage` is
offered exactly to the stored display name `이성일` — for that name the
delete control is rendered, for another name it is not, so the observed
behavior does depend on the free-text name matching the hardcoded
value, contradicting the claim. -/
theorem delete_gate_depends_on_name :
    deleteButtonVisible "이성일" = true ∧
      deleteButtonVisible "김영희" = false := by
  constructor <;> rfl

/-- C5 amended: the delete control (wired to `handleDeleteRoom`) is
rendered precisely when the stored free-text user name equals the
hardcoded string `이성일` — the hardcoded privileged-identity check the
spec flags as a security smell is present in the code. -/
theorem delete_gate_iff_hardcoded_name (name : String) :
    deleteButtonVisible name = true ↔ name = "이성일" := by
  unfold deleteButtonVisible
  exact beq_iff_eq

/-! ### Lemmas for the reaction toggle -/

theorem finset_toggle_toggle (x : String) (t : Finset String) :
    (if x ∈ (if x ∈ t then t.erase x else insert x t) then
        (if x ∈ t then t.erase x else insert x t).erase x
      else insert x (if x ∈ t then t.erase x else insert x t)) = t := by
  by_cases h : x ∈ t
  · simp only [h, if_true, Finset.not_mem_erase, if_false]
    exact Finset.insert_erase h
  · simp only [h, if_false, Finset.mem_insert_self, if_true]
    exact Finset.erase_insert h

theorem like_map_toggle_toggle (photoId : String) (t : Finset String)
    (ps : List Photo) :
    ((ps.map fun photo =>
        if photo.id = photoId then
          { photo with
            like_count :=
              if photoId ∈ t then photo.like_count - 1
              else photo.like_count + 1 }
        else photo).map fun photo =>
      if photo.id = photoId then
        { photo with
          like_count :=
            if photoId ∈ (if photoId ∈ t then t.erase photoId
                else insert photoId t) then
              photo.like_count - 1
            else photo.like_count + 1 }
      else photo) = ps := by
  rw [List.map_map]
  conv_rhs => rw [← List.map_id ps]
  apply List.map_congr_left
  intro p _
  by_cases hp : p.id = photoId
  · by_cases h : photoId ∈ t
    · simp [Function.comp, hp, h, Finset.not_mem_erase]
      rw [← hp]
    · simp [Function.comp, hp, h, Finset.mem_insert_self]
      rw [← hp]
  · simp [Function.comp, hp]

theorem dislike_map_toggle_toggle (photoId : String) (t : Finset String)
    (ps : List Photo) :
    ((ps.map fun photo =>
        if photo.id = photoId then
          { photo with
            dislike_count :=
              if photoId ∈ t then photo.dislike_count - 1
              else photo.dislike_count + 1 }
        else photo).map fun photo =>
      if photo.id = photoId then
        { photo with
          dislike_count :=
            if photoId ∈ (if photoId ∈ t then t.erase photoId
                else insert photoId t) then
              photo.dislike_count - 1
            else photo.dislike_count + 1 }
      else photo) = ps := by
  rw [List.map_map]
  conv_rhs => rw [← List.map_id ps]
  apply List.map_congr_left
  intro p _
  by_cases hp : p.id = photoId
  · by_cases h : photoId ∈ t
    · simp [Function.comp, hp, h, Finset.not_mem_erase]
      rw [← hp]
    · simp [Function.comp, hp, h, Finset.mem_insert_self]
      rw [← hp]
  · simp [Function.comp, hp]

/-- C6: toggling the same reaction kind on the same photo twice in
sequence restores the gallery state exactly: the counter returns to its
pre-toggle value and the user's active flag (membership of the photo id
in the user's like/dislike set) to its pre-toggle value. -/
theorem toggle_twice_identity (photoId : String) (s : GalleryState) :
    handleLike photoId (handleLike photoId s) = s ∧
      handleDislike photoId (handleDislike photoId s) = s := by
  cases s with
  | mk likes dislikes photos =>
    constructor
    · simp only [handleLike]
      simp only [GalleryState.mk.injEq]
      exact ⟨finset_toggle_toggle photoId likes, trivial,
        like_map_toggle_toggle photoId likes photos⟩
    · simp only [handleDislike]
      simp only [GalleryState.mk.injEq]
      exact ⟨trivial, finset_toggle_toggle photoId dislikes,
        dislike_map_toggle_toggle photoId dislikes photos⟩

/-! ### Lemmas for per-file isolation and the upload summary -/

theorem countP_success_total (l : List FileResult) :
    l.countP (fun r => r.success) + l.countP (fun r => !r.success) =
      l.length := by
  induction l with
  | nil => rfl
  | cons a t ih => cases h : a.success <;> simp [List.countP_cons, h] <;> omega

theorem summary_foldl_spec (pairs : List (String × FileOutcome))
    (acc : UploadSummary) :
    (pairs.foldl summaryStep acc).completedFiles =
        acc.completedFiles + pairs.countP (fun p => isSuccess p.2) ∧
      (pairs.foldl summaryStep acc).skippedFiles =
        acc.skippedFiles + pairs.countP (fun p => isDuplicateRejection p.2) ∧
      (pairs.foldl summaryStep acc).errors =
        acc.errors ++ pairs.filterMap failMessage := by
  induction pairs generalizing acc with
  | nil => simp
  | cons p rest ih =>
    obtain ⟨name, o⟩ := p
    cases o with
    | ok =>
      simp only [List.foldl_cons]
      rcases ih (summaryStep acc (name, FileOutcome.ok)) with ⟨h1, h2, h3⟩
      refine ⟨?_, ?_, ?_⟩
      · rw [h1]
        simp [summaryStep, isSuccess, List.countP_cons]
        omega
      · rw [h2]
        simp [summaryStep, isDuplicateRejection, List.countP_cons]
      · rw [h3]
        simp [summaryStep, failMessage]
    | fail e =>
      simp only [List.foldl_cons]
      rcases ih (summaryStep acc (name, FileOutcome.fail e)) with ⟨h1, h2, h3⟩
      refine ⟨?_, ?_, ?_⟩
      · rw [h1]
        simp [summaryStep, isSuccess, List.countP_cons]
      · rw [h2]
        cases hs : (e.status == some 409) <;>
          simp [summaryStep, isDuplicateRejection, List.countP_cons, hs] <;>
          omega
      · rw [h3]
        simp [summaryStep, failMessage]

theorem uploadFilesInBatches_eq_foldl (pairs : List (String × FileOutcome)) :
    uploadFilesInBatches pairs = pairs.foldl summaryStep ⟨0, 0, []⟩ := by
  unfold uploadFilesInBatches
  rw [← List.foldl_flatten, chunk5_join]

theorem failMessage_length (pairs : List (String × FileOutcome)) :
    (pairs.filterMap failMessage).length =
      pairs.countP (fun p => !(isSuccess p.2)) := by
  induction pairs with
  | nil => rfl
  | cons p rest ih =>
    obtain ⟨name, o⟩ := p
    cases o <;> simp [failMessage, isSuccess, List.countP_cons, ih]

theorem countP_fail_split (pairs : List (String × FileOutcome)) :
    pairs.countP (fun p => !(isSuccess p.2)) =
      pairs.countP (fun p => isDuplicateRejection p.2) +
        pairs.countP (fun p => isGenuineFailure p.2) := by
  induction pairs with
  | nil => rfl
  | cons p rest ih =>
    obtain ⟨name, o⟩ := p
    rw [List.countP_cons, List.countP_cons, List.countP_cons, ih]
    cases o with
    | ok =>
      simp [isSuccess, isDuplicateRejection, isGenuineFailure]
    | fail e =>
      cases hs : (e.status == some 409) <;>
        simp [isSuccess, isDuplicateRejection, isGenuineFailure, hs] <;>
        omega

/-- C4: each file's recorded result is a function of that file's own
outcome alone — the per-file `try`/`catch` turns a failure into a
`success = false` record with the derived error message and never
propagates: changing the outcome of one file does not change the record
of any other file, and the run still produces a complete result list in
which every file is counted exactly once as completed or failed. -/
theorem failure_isolated_per_file (pairs : List FilePair)
    (outcomes : List IngestOutcome)
    (hlen : outcomes.length = pairs.length) :
    (runBatchResults pairs outcomes).length = pairs.length ∧
      (∀ (i : Nat) (p : FilePair) (o : IngestOutcome),
        pairs[i]? = some p → outcomes[i]? = some o →
        (runBatchResults pairs outcomes)[i]? = some (perFileResult p o)) ∧
      (∀ (i j : Nat) (o : IngestOutcome), i ≠ j →
        (runBatchResults pairs (outcomes.set j o))[i]? =
          (runBatchResults pairs outcomes)[i]?) ∧
      (runBatchResults pairs outcomes).countP (fun r => r.success) +
          (runBatchResults pairs outcomes).countP (fun r => !r.success) =
        pairs.length := by
  refine ⟨?_, ?_, ?_, ?_⟩
  · simp [runBatchResults, List.length_zipWith, hlen]
  · intro i p o hp ho
    simp [runBatchResults, List.getElem?_zipWith, hp, ho]
  · intro i j o hij
    simp only [runBatchResults, List.getElem?_zipWith]
    rw [List.getElem?_set_ne (Ne.symm hij)]
  · rw [countP_success_total]
    simp [runBatchResults, List.length_zipWith, hlen]

/-- Witness for C4: a two-file batch with one failure; replacing the
first file's outcome leaves the second file's record unchanged. -/
theorem failure_isolated_per_file_witness :
    ([IngestOutcome.err (some "Storage full") none,
        IngestOutcome.ok "p1"].length =
      ([⟨"a.jpg", "l1"⟩, ⟨"b.jpg", "l2"⟩] : List FilePair).length) ∧
      (runBatchResults [⟨"a.jpg", "l1"⟩, ⟨"b.jpg", "l2"⟩]
          ([IngestOutcome.err (some "Storage full") none,
            IngestOutcome.ok "p1"].set 0 (IngestOutcome.ok "px")))[1]? =
        (runBatchResults [⟨"a.jpg", "l1"⟩, ⟨"b.jpg", "l2"⟩]
          [IngestOutcome.err (some "Storage full") none,
            IngestOutcome.ok "p1"])[1]? :=
  ⟨rfl,
    (failure_isolated_per_file [⟨"a.jpg", "l1"⟩, ⟨"b.jpg", "l2"⟩]
        [IngestOutcome.err (some "Storage full") none,
          IngestOutcome.ok "p1"] rfl).2.2.1
      1 0 (IngestOutcome.ok "px") (by decide)⟩

/-- C7 counterexample: a file whose content type is allowed, whose size
is within the 10 MiB cap, and whose uploader name and room id pass the
format checks is nevertheless rejected by `photoApi.uploadPhoto`'s
validation — its filename contains `..`, a condition outside the
claim's list — so validation does not fail *exactly when* the claimed
conditions hold. -/
theorem validation_beyond_claimed_conditions :
    (allowedTypes.contains "image/jpeg" = true ∧
        ((⟨"../evil.jpg", 1000, "image/jpeg"⟩ : FileMeta).size ≤
          maxFileSize) ∧
        validUserName "Alice" = true ∧
        validRoomId "12345678-1234-1234-1234-123456789abc" = true) ∧
      uploadPhotoRequest "12345678-1234-1234-1234-123456789abc" "Alice"
          ⟨"../evil.jpg", 1000, "image/jpeg"⟩ =
        Except.error "Invalid filename." := by
  refine ⟨⟨by decide, by decide, by decide, by decide⟩, ?_⟩
  rfl

/-- C7 (amended): the submit-side validation of `photoApi.uploadPhoto`
rejects a file exactly when the content type is not in the allowed
image-type set, or the byte length exceeds 10 MiB, or the uploader name
or room id fails its format check, **or the original filename contains
`..`, `/` or `\`**; a file passing all five checks is not rejected. -/
theorem validation_error_iff (roomId uploaderName : String) (f : FileMeta) :
    requestMade (uploadPhotoRequest roomId uploaderName f) = false ↔
      (validRoomId roomId = false ∨ validUserName uploaderName = false ∨
        allowedTypes.contains f.mimeType = false ∨ maxFileSize < f.size ∨
        suspiciousName f.name = true) := by
  unfold uploadPhotoRequest requestMade validateFile
  by_cases hr : validRoomId roomId <;>
    by_cases hu : validUserName uploaderName <;>
    by_cases ht : f.mimeType ∈ allowedTypes <;>
    by_cases hs : maxFileSize < f.size <;>
    by_cases hn : suspiciousName f.name <;>
    simp [hr, hu, ht, hs, hn]

/-- C8 counterexample: after one failed log has been reset to `pending`,
the client retry pass over the session logs issues **no** submission to
the ingestion pipeline — its complete action trace is UI bookkeeping
only — yet it counts the log as one retry success and zero failures, so
the file is not re-attempted and cannot "end in Success or Failed
again" through this pass. -/
theorem retry_loop_no_resubmission_counterexample :
    (retryLoopActions [⟨"log-1", "a.jpg", LogStatus.pending, none⟩]
          |>.countP isSubmit) = 0 ∧
      retryLoopCounts [⟨"log-1", "a.jpg", LogStatus.pending, none⟩] =
        (1, 0) ∧
      retryLoopActions [⟨"log-1", "a.jpg", LogStatus.pending, none⟩] =
        [ClientAction.setFileName "a.jpg",
          ClientAction.logRetryAttempt "a.jpg"] := by
  refine ⟨rfl, rfl, rfl⟩

/-- C8 (amended): the retry flow asks the server to reset the named
failed logs and then iterates the logs reported `pending`, but the loop
performs no re-submission through the ingestion pipeline — it only
updates UI state — and reports every pending log as a retry success
with zero failures; re-attempting a file requires the payload to be
resupplied, which this code does not do. -/
theorem retry_loop_no_resubmission (sessionLogs : List UploadLog) :
    (retryLoopActions sessionLogs).countP isSubmit = 0 ∧
      retryLoopCounts sessionLogs =
        ((sessionLogs.filter
            (fun log => log.status == LogStatus.pending)).length, 0) := by
  constructor
  · unfold retryLoopActions
    induction sessionLogs.filter
        (fun log => log.status == LogStatus.pending) with
    | nil => rfl
    | cons l t ih =>
      simp [List.flatMap_cons, List.countP_append, isSubmit,
        List.countP_cons, ih]
  · unfold retryLoopCounts
    have hgen : ∀ (logs : List UploadLog) (acc : Nat × Nat),
        logs.foldl (fun acc _ => (acc.1 + 1, acc.2)) acc =
          (acc.1 + logs.length, acc.2) := by
      intro logs
      induction logs with
      | nil => simp
      | cons l t ih =>
        intro acc
        simp [ih]
        omega
    rw [hgen]
    simp

/-- C9: the batch uploader always returns an aggregate summary in which
`completedFiles` counts the successes, `skippedFiles` counts exactly
the duplicate-content (HTTP 409) rejections, and `errors` holds one
descriptive line per failed file (per-file detail); the failure count
reported to the user is `errors.length - skippedFiles`, i.e. the number
of genuine (non-duplicate) failures, so duplicates are surfaced as
"already present" rather than failures. -/
theorem batch_summary_classification (pairs : List (String × FileOutcome)) :
    (uploadFilesInBatches pairs).completedFiles =
        pairs.countP (fun p => isSuccess p.2) ∧
      (uploadFilesInBatches pairs).skippedFiles =
        pairs.countP (fun p => isDuplicateRejection p.2) ∧
      (uploadFilesInBatches pairs).errors = pairs.filterMap failMessage ∧
      (uploadFilesInBatches pairs).errors.length =
        pairs.countP (fun p => !(isSuccess p.2)) ∧
      reportedFailureCount (uploadFilesInBatches pairs) =
        pairs.countP (fun p => isGenuineFailure p.2) := by
  rcases summary_foldl_spec pairs ⟨0, 0, []⟩ with ⟨h1, h2, h3⟩
  rw [uploadFilesInBatches_eq_foldl] at *
  simp only at h1 h2 h3
  refine ⟨by simpa using h1, by simpa using h2, by simpa using h3, ?_, ?_⟩
  · rw [h3]
    simpa using failMessage_length pairs
  · unfold reportedFailureCount
    rw [h3, h2]
    simp [failMessage_length, countP_fail_split]

/-- C10: a file whose original filename contains `..`, `/` or `\` is
rejected by `validateInput.file` with the exact error
`Invalid filename.` even when its content type and size are acceptable,
and `photoApi.uploadPhoto` therefore throws before any upload request
is issued. -/
theorem suspicious_filename_rejected (f : FileMeta)
    (roomId uploaderName : String)
    (h1 : suspiciousName f.name = true)
    (h2 : allowedTypes.contains f.mimeType = true)
    (h3 : f.size ≤ maxFileSize) :
    validateFile f = some "Invalid filename." ∧
      requestMade (uploadPhotoRequest roomId uploaderName f) = false := by
  have hns : ¬(maxFileSize < f.size) := by omega
  have h2m : f.mimeType ∈ allowedTypes := by simpa using h2
  have hv : validateFile f = some "Invalid filename." := by
    unfold validateFile
    simp [h1, h2m, hns]
  refine ⟨hv, ?_⟩
  unfold uploadPhotoRequest requestMade
  by_cases hr : validRoomId roomId
  · by_cases hu : validUserName uploaderName
    · simp [hr, hu, hv]
    · simp [hr, hu]
  · simp [hr]

/-- Witness for C10: `../evil2.png` with an allowed type and a small
size is rejected with `Invalid filename.` and no request is made. -/
theorem suspicious_filename_rejected_witness :
    (suspiciousName "../evil2.png" = true ∧
        allowedTypes.contains "image/png" = true ∧
        (⟨"../evil2.png", 512, "image/png"⟩ : FileMeta).size ≤
          maxFileSize) ∧
      (validateFile ⟨"../evil2.png", 512, "image/png"⟩ =
          some "Invalid filename." ∧
        requestMade
            (uploadPhotoRequest "12345678-1234-1234-1234-123456789abc"
              "Bob1" ⟨"../evil2.png", 512, "image/png"⟩) =
          false) :=
  ⟨⟨by decide, by decide, by decide⟩,
    suspicious_filename_rejected ⟨"../evil2.png", 512, "image/png"⟩
      "12345678-1234-1234-1234-123456789abc" "Bob1" (by decide) (by decide)
      (by decide)⟩

end Triphoto
